import Mathlib

/-!
Verification development for the dynatrace-oss/openllmetry slice consisting of
four source units:

* `opentelemetry/instrumentation/bedrock/guardrail.py` (guardrail telemetry extractor),
* `traceloop/sdk/decorators/base.py` (entity tracing decorator library),
* `traceloop/sdk/instruments.py` (instrumented-vendor registry),
* `opentelemetry/instrumentation/openai/shared/config.py` (shared vendor configuration).

The Python data and control flow is shallowly embedded: nested response payloads
become an inductive value type `JVal`, dictionary operations become total
lookups returning `Option`, exceptions that the Python code can raise become an
`Option String` error component (metrics recorded before the exception are
kept, matching the fact that the injected metric instruments were already
invoked), and the side effects of the metric instruments and of the tracing API
become explicit event lists.
-/

/-- Value of a decoded JSON-like payload (Python dicts, lists, strings and
numbers as they appear in the bedrock guardrail responses). Objects keep their
fields in insertion order, mirroring Python dict ordering. -/
inductive JVal where
  | str (s : String)
  | num (n : Int)
  | obj (fields : List (String × JVal))
  | arr (elems : List JVal)

/-- Ordered association lookup used for Python's `d.get(k)` / `k in d`.
Returns `none` on a non-object, mirroring a failed mapping access. -/
def lookupField : List (String × JVal) → String → Option JVal
  | [], _ => none
  | (k0, v) :: rest, k => if k0 == k then some v else lookupField rest k

/-- Python `d.get(k)` on a decoded payload: `none` when the key is absent or
the receiver is not a mapping. -/
def jget (j : JVal) (k : String) : Option JVal :=
  match j with
  | JVal.obj fields => lookupField fields k
  | _ => none

/-- Python `d[k] = v` on an ordered dict: update in place when the key exists,
append otherwise. -/
def dinsert (d : List (String × JVal)) (k : String) (v : JVal) : List (String × JVal) :=
  match d with
  | [] => [(k, v)]
  | (k0, v0) :: rest => if k0 == k then (k0, v) :: rest else (k0, v0) :: dinsert rest k v

/-- Python `next(iter(d))` on a mapping: the first key. `none` models the
`StopIteration` on an empty mapping and the `TypeError` on a non-mapping,
both of which the callers below turn into a propagated error. -/
def firstKey : JVal → Option String
  | JVal.obj ((k, _) :: _) => some k
  | _ => none

/-- Python `for x in v`: lists yield their elements, mappings yield their keys
as strings; any other receiver raises `TypeError`. (String iteration is not
needed by any call site modelled here and is mapped to the error case.) -/
def pyIter : JVal → Except String (List JVal)
  | JVal.arr xs => Except.ok xs
  | JVal.obj fs => Except.ok (fs.map fun kv => JVal.str kv.1)
  | _ => Except.error "TypeError: object is not iterable"

/-- External constant `SpanAttributes.LLM_TOKEN_TYPE` from
`opentelemetry.semconv_ai`. -/
def LLM_TOKEN_TYPE : String := "gen_ai.token.type"

/-- External constant `SpanAttributes.LLM_RESPONSE_MODEL` from
`opentelemetry.semconv_ai`. -/
def LLM_RESPONSE_MODEL : String := "gen_ai.response.model"

/-- External constant `SpanAttributes.LLM_SYSTEM` from
`opentelemetry.semconv_ai`. -/
def LLM_SYSTEM : String := "gen_ai.system"

/-- Embeds `guardrail.py`'s `Type(Enum)` with members `INPUT = 'input'` and
`OUTPUT = 'output'`. It is called `Direction` here because `Type` is reserved
in Lean. -/
inductive Direction where
  | INPUT
  | OUTPUT
deriving DecidableEq

/-- The `.value` of the Python enum member. -/
def Direction.value : Direction → String
  | Direction.INPUT => "input"
  | Direction.OUTPUT => "output"

/-- One recording made through the injected `metric_params` bundle, with the
attribute dictionary passed to the instrument. Each constructor corresponds to
one instrument of the bundle. -/
inductive MetricEvent where
  | latencyRecord (value : JVal) (attributes : List (String × JVal))
  | coverageAdd (value : JVal) (attributes : List (String × JVal))
  | sensitiveAdd (n : Nat) (attributes : List (String × JVal))
  | topicAdd (n : Nat) (attributes : List (String × JVal))
  | contentAdd (n : Nat) (attributes : List (String × JVal))
  | wordsAdd (n : Nat) (attributes : List (String × JVal))
  | counterAdd (n : Nat) (attributes : List (String × JVal))

/-- Result of a guardrail-extractor step: the metric recordings made so far and
an optional uncaught Python exception (recordings made before the exception
stay visible, since the metric instruments were already called). -/
abbrev GRes := List MetricEvent × Option String

/-- Sequencing of two extractor steps: if the first raised, the second never
runs; otherwise the recordings are concatenated. -/
def seqG (a b : GRes) : GRes :=
  match a with
  | (evs, some e) => (evs, some e)
  | (evs, none) => (evs ++ b.1, b.2)

/-- Loop body of `is_guardrail_activated` over `response['results']`: returns
true at the first entry whose `completionReason` equals `"CONTENT_FILTERED"`;
a non-mapping entry raises (`AttributeError` on `.get`) before later entries
are inspected. -/
def scanResults : List JVal → Except String Bool
  | [] => Except.ok false
  | m :: rest =>
    match m with
    | JVal.obj _ =>
      match jget m "completionReason" with
      | some (JVal.str s) =>
        if s == "CONTENT_FILTERED" then Except.ok true else scanResults rest
      | _ => scanResults rest
    | _ => Except.error "AttributeError: get on non-mapping results entry"

/-- The `results` clause of `is_guardrail_activated`: absent key falls
through; a present value is iterated and scanned. -/
def checkResults (response : JVal) : Except String Bool :=
  match jget response "results" with
  | none => Except.ok false
  | some rs =>
    match pyIter rs with
    | Except.error e => Except.error e
    | Except.ok msgs => scanResults msgs

/-- Embeds `is_guardrail_activated(response)` from `guardrail.py`. The final
clause is Python's `response.get('amazon-bedrock-guardrailAction') != "NONE"`:
an absent key yields `None`, and `None != "NONE"` is `True`, so absence makes
the function return `True`. -/
def is_guardrail_activated (response : JVal) : Except String Bool :=
  match checkResults response with
  | Except.error e => Except.error e
  | Except.ok true => Except.ok true
  | Except.ok false =>
    if (match jget response "stopReason" with
        | some (JVal.str s) => s == "guardrail_intervened"
        | _ => false) then Except.ok true
    else
      Except.ok (match jget response "amazon-bedrock-guardrailAction" with
        | some (JVal.str s) => !(s == "NONE")
        | some _ => true
        | none => true)

/-- Embeds `handle_invoke_metrics(t, guardrail, attrs, metric_params)`. -/
def handle_invoke_metrics (t : Direction) (guardrail : JVal)
    (attrs : List (String × JVal)) : GRes :=
  match jget guardrail "invocationMetrics" with
  | none => ([], none)
  | some im =>
    let latPart : GRes :=
      match jget im "guardrailProcessingLatency" with
      | none => ([], none)
      | some lat =>
        ([MetricEvent.latencyRecord lat (dinsert attrs LLM_TOKEN_TYPE (JVal.str t.value))], none)
    let covPart : GRes :=
      match jget im "guardrailCoverage" with
      | none => ([], none)
      | some cov =>
        match jget cov "textCharacters" with
        | none => ([], some "KeyError: textCharacters")
        | some tc =>
          match jget tc "guarded" with
          | none => ([], some "KeyError: guarded")
          | some g =>
            ([MetricEvent.coverageAdd g (dinsert attrs LLM_TOKEN_TYPE (JVal.str t.value))], none)
    seqG latPart covPart

/-- Loop of `handle_sensitive` over `sensitiveInformationPolicy['piiEntities']`. -/
def piiLoop (t : Direction) (attrs : List (String × JVal)) : List JVal → GRes
  | [] => ([], none)
  | entry :: rest =>
    match jget entry "type" with
    | none => ([], some "KeyError: type")
    | some ty =>
      seqG
        ([MetricEvent.sensitiveAdd 1
            (dinsert (dinsert attrs "gen_ai.guardrail.type" (JVal.str t.value))
              "gen_ai.guardrail.pii" ty)], none)
        (piiLoop t attrs rest)

/-- Loop of `handle_sensitive` over `sensitiveInformationPolicy['regexes']`. -/
def regexLoop (t : Direction) (attrs : List (String × JVal)) : List JVal → GRes
  | [] => ([], none)
  | entry :: rest =>
    match jget entry "name" with
    | none => ([], some "KeyError: name")
    | some nm =>
      seqG
        ([MetricEvent.sensitiveAdd 1
            (dinsert (dinsert attrs "gen_ai.guardrail.type" (JVal.str t.value))
              "gen_ai.guardrail.pattern" nm)], none)
        (regexLoop t attrs rest)

/-- Embeds `handle_sensitive(t, guardrail, attrs, metric_params)`. -/
def handle_sensitive (t : Direction) (guardrail : JVal)
    (attrs : List (String × JVal)) : GRes :=
  match jget guardrail "sensitiveInformationPolicy" with
  | none => ([], none)
  | some si =>
    let piiPart : GRes :=
      match jget si "piiEntities" with
      | none => ([], none)
      | some pe =>
        match pyIter pe with
        | Except.error e => ([], some e)
        | Except.ok entries => piiLoop t attrs entries
    let regexPart : GRes :=
      match jget si "regexes" with
      | none => ([], none)
      | some re =>
        match pyIter re with
        | Except.error e => ([], some e)
        | Except.ok entries => regexLoop t attrs entries
    seqG piiPart regexPart

/-- Loop of `handle_topic` over `topicPolicy['topics']`. -/
def topicLoop (t : Direction) (attrs : List (String × JVal)) : List JVal → GRes
  | [] => ([], none)
  | topic :: rest =>
    match jget topic "name" with
    | none => ([], some "KeyError: name")
    | some nm =>
      seqG
        ([MetricEvent.topicAdd 1
            (dinsert (dinsert attrs "gen_ai.guardrail.type" (JVal.str t.value))
              "gen_ai.guardrail.topic" nm)], none)
        (topicLoop t attrs rest)

/-- Embeds `handle_topic(t, guardrail, attrs, metric_params)`; note that
`guardrail['topicPolicy']['topics']` is a required lookup once `topicPolicy`
is present. -/
def handle_topic (t : Direction) (guardrail : JVal)
    (attrs : List (String × JVal)) : GRes :=
  match jget guardrail "topicPolicy" with
  | none => ([], none)
  | some tp =>
    match jget tp "topics" with
    | none => ([], some "KeyError: topics")
    | some ts =>
      match pyIter ts with
      | Except.error e => ([], some e)
      | Except.ok l => topicLoop t attrs l

/-- Loop of `handle_content` over `contentPolicy['filters']`; the dict literal
evaluates `filter['type']` before `filter['confidence']`. -/
def contentLoop (t : Direction) (attrs : List (String × JVal)) : List JVal → GRes
  | [] => ([], none)
  | f :: rest =>
    match jget f "type" with
    | none => ([], some "KeyError: type")
    | some ty =>
      match jget f "confidence" with
      | none => ([], some "KeyError: confidence")
      | some conf =>
        seqG
          ([MetricEvent.contentAdd 1
              (dinsert
                (dinsert (dinsert attrs "gen_ai.guardrail.type" (JVal.str t.value))
                  "gen_ai.guardrail.content" ty)
                "gen_ai.guardrail.confidence" conf)], none)
          (contentLoop t attrs rest)

/-- Embeds `handle_content(t, guardrail, attrs, metric_params)`. -/
def handle_content (t : Direction) (guardrail : JVal)
    (attrs : List (String × JVal)) : GRes :=
  match jget guardrail "contentPolicy" with
  | none => ([], none)
  | some cp =>
    match jget cp "filters" with
    | none => ([], some "KeyError: filters")
    | some fs =>
      match pyIter fs with
      | Except.error e => ([], some e)
      | Except.ok l => contentLoop t attrs l

/-- Loop of `handle_words` over a word list (`customWords` or
`managedWordLists`). -/
def wordsLoop (t : Direction) (attrs : List (String × JVal)) : List JVal → GRes
  | [] => ([], none)
  | f :: rest =>
    match jget f "match" with
    | none => ([], some "KeyError: match")
    | some m =>
      seqG
        ([MetricEvent.wordsAdd 1
            (dinsert (dinsert attrs "gen_ai.guardrail.type" (JVal.str t.value))
              "gen_ai.guardrail.match" m)], none)
        (wordsLoop t attrs rest)

/-- Embeds `handle_words(t, guardrail, attrs, metric_params)`. -/
def handle_words (t : Direction) (guardrail : JVal)
    (attrs : List (String × JVal)) : GRes :=
  match jget guardrail "wordPolicy" with
  | none => ([], none)
  | some filters =>
    let customPart : GRes :=
      match jget filters "customWords" with
      | none => ([], none)
      | some cw =>
        match pyIter cw with
        | Except.error e => ([], some e)
        | Except.ok l => wordsLoop t attrs l
    let managedPart : GRes :=
      match jget filters "managedWordLists" with
      | none => ([], none)
      | some mw =>
        match pyIter mw with
        | Except.error e => ([], some e)
        | Except.ok l => wordsLoop t attrs l
    seqG customPart managedPart

/-- Embeds `_handle(t, guardrail_info, attrs, metric_params)`: the five
independent extractions, in source order. -/
def ghandle (t : Direction) (guardrail_info : JVal)
    (attrs : List (String × JVal)) : GRes :=
  seqG (handle_invoke_metrics t guardrail_info attrs)
    (seqG (handle_sensitive t guardrail_info attrs)
      (seqG (handle_topic t guardrail_info attrs)
        (seqG (handle_content t guardrail_info attrs)
          (handle_words t guardrail_info attrs))))

/-- The shared attribute dictionary both shape handlers build first:
`gen_ai.vendor`, `LLM_RESPONSE_MODEL`, `LLM_SYSTEM = "bedrock"`. -/
def baseAttrs (vendor model : String) : List (String × JVal) :=
  [("gen_ai.vendor", JVal.str vendor),
   (LLM_RESPONSE_MODEL, JVal.str model),
   (LLM_SYSTEM, JVal.str "bedrock")]

/-- State threaded through the shape handlers: the (possibly mutated)
attribute dictionary, the recordings so far and an optional uncaught
exception. -/
abbrev GState := List (String × JVal) × List MetricEvent × Option String

/-- The `inputAssessment` branch of `guardrail_converse`: take the first key
as the guardrail id, mutate `attrs`, then process that single assessment as
direction `INPUT`. -/
def convInput (g : JVal) (attrs0 : List (String × JVal)) : GState :=
  match jget g "inputAssessment" with
  | none => (attrs0, [], none)
  | some ia =>
    match firstKey ia with
    | none => (attrs0, [], some "StopIteration")
    | some gId =>
      let attrs1 := dinsert attrs0 "gen_ai.guardrail" (JVal.str gId)
      match jget ia gId with
      | none => (attrs1, [], some "KeyError: inputAssessment id")
      | some info =>
        let r := ghandle Direction.INPUT info attrs1
        (attrs1, r.1, r.2)

/-- Loop running `_handle(OUTPUT, info, attrs)` over a list of assessments. -/
def ghandleLoop (t : Direction) (attrs : List (String × JVal)) : List JVal → GRes
  | [] => ([], none)
  | i :: rest => seqG (ghandle t i attrs) (ghandleLoop t attrs rest)

/-- The `outputAssessments` branch of `guardrail_converse`: first key as the
guardrail id, then every assessment in the list under that id is processed as
direction `OUTPUT`. -/
def convOutput (g : JVal) (attrs : List (String × JVal)) : GState :=
  match jget g "outputAssessments" with
  | none => (attrs, [], none)
  | some oa =>
    match firstKey oa with
    | none => (attrs, [], some "StopIteration")
    | some gId =>
      let attrs2 := dinsert attrs "gen_ai.guardrail" (JVal.str gId)
      match jget oa gId with
      | none => (attrs2, [], some "KeyError: outputAssessments id")
      | some infos =>
        match pyIter infos with
        | Except.error e => (attrs2, [], some e)
        | Except.ok l =>
          let r := ghandleLoop Direction.OUTPUT attrs2 l
          (attrs2, r.1, r.2)

/-- Embeds `guardrail_converse(response, vendor, model, metric_params)`. -/
def guardrail_converse (response : JVal) (vendor model : String) : GRes :=
  let attrs0 := baseAttrs vendor model
  let step : GState :=
    match jget response "trace" with
    | none => (attrs0, [], none)
    | some tr =>
      match jget tr "guardrail" with
      | none => (attrs0, [], none)
      | some g =>
        let ri := convInput g attrs0
        match ri.2.2 with
        | some e => (ri.1, ri.2.1, some e)
        | none =>
          let ro := convOutput g ri.1
          (ro.1, ri.2.1 ++ ro.2.1, ro.2.2)
  match step.2.2 with
  | some e => (step.2.1, some e)
  | none =>
    match is_guardrail_activated response with
    | Except.error e => (step.2.1, some e)
    | Except.ok true => (step.2.1 ++ [MetricEvent.counterAdd 1 step.1], none)
    | Except.ok false => (step.2.1, none)

/-- The `input` branch of `guardrail_handling`. -/
def invokeInput (bt : JVal) (attrs0 : List (String × JVal)) : GState :=
  match jget bt "guardrail" with
  | none => (attrs0, [], none)
  | some g =>
    match jget g "input" with
    | none => (attrs0, [], none)
    | some inp =>
      match firstKey inp with
      | none => (attrs0, [], some "StopIteration")
      | some gId =>
        let attrs1 := dinsert attrs0 "gen_ai.guardrail" (JVal.str gId)
        match jget inp gId with
        | none => (attrs1, [], some "KeyError: input id")
        | some info =>
          let r := ghandle Direction.INPUT info attrs1
          (attrs1, r.1, r.2)

/-- The loop body of `guardrail_handling` over the `outputs` list. `first` is
the list's first entry, fixed over the whole loop: the source reads the id
from the current entry (`next(iter(output))`) but looks the assessment up in
`outputs[0]`. -/
def processOutputsFrom (first : JVal) (attrs : List (String × JVal)) :
    List JVal → GState
  | [] => (attrs, [], none)
  | o :: rest =>
    match firstKey o with
    | none => (attrs, [], some "StopIteration")
    | some gId =>
      let attrs1 := dinsert attrs "gen_ai.guardrail" (JVal.str gId)
      match jget first gId with
      | none => (attrs1, [], some "KeyError: outputs id")
      | some info =>
        let r := ghandle Direction.OUTPUT info attrs1
        match r.2 with
        | some e => (attrs1, r.1, some e)
        | none =>
          let rr := processOutputsFrom first attrs1 rest
          (rr.1, r.1 ++ rr.2.1, rr.2.2)

/-- The `outputs` branch of `guardrail_handling`. `outputs` must be a list
for the `outputs[0]` indexing inside the loop; with an empty list the loop
body never runs. -/
def invokeOutputs (bt : JVal) (attrs : List (String × JVal)) : GState :=
  match jget bt "guardrail" with
  | none => (attrs, [], none)
  | some g =>
    match jget g "outputs" with
    | none => (attrs, [], none)
    | some outs =>
      match outs with
      | JVal.arr os =>
        match os with
        | [] => (attrs, [], none)
        | first :: _ => processOutputsFrom first attrs os
      | _ => (attrs, [], some "TypeError: outputs is not a list")

/-- Embeds `guardrail_handling(response_body, vendor, model, metric_params)`:
runs only when `amazon-bedrock-guardrailAction` is present in the payload. -/
def guardrail_handling (response_body : JVal) (vendor model : String) : GRes :=
  if (jget response_body "amazon-bedrock-guardrailAction").isSome then
    let attrs0 := baseAttrs vendor model
    let step : GState :=
      match jget response_body "amazon-bedrock-trace" with
      | none => (attrs0, [], none)
      | some bt =>
        let ri := invokeInput bt attrs0
        match ri.2.2 with
        | some e => (ri.1, ri.2.1, some e)
        | none =>
          let ro := invokeOutputs bt ri.1
          (ro.1, ri.2.1 ++ ro.2.1, ro.2.2)
    match step.2.2 with
    | some e => (step.2.1, some e)
    | none =>
      match is_guardrail_activated response_body with
      | Except.error e => (step.2.1, some e)
      | Except.ok true => (step.2.1 ++ [MetricEvent.counterAdd 1 step.1], none)
      | Except.ok false => (step.2.1, none)
  else ([], none)

/-- External constant `SpanAttributes.TRACELOOP_SPAN_KIND`. -/
def TRACELOOP_SPAN_KIND : String := "traceloop.span.kind"

/-- External constant `SpanAttributes.TRACELOOP_ENTITY_NAME`. -/
def TRACELOOP_ENTITY_NAME : String := "traceloop.entity.name"

/-- External constant `SpanAttributes.TRACELOOP_ENTITY_VERSION`. -/
def TRACELOOP_ENTITY_VERSION : String := "traceloop.entity.version"

/-- External constant `SpanAttributes.TRACELOOP_ENTITY_INPUT`. -/
def TRACELOOP_ENTITY_INPUT : String := "traceloop.entity.input"

/-- External constant `SpanAttributes.TRACELOOP_ENTITY_OUTPUT`. -/
def TRACELOOP_ENTITY_OUTPUT : String := "traceloop.entity.output"

/-- The external `TraceloopSpanKindValues` enumeration members used by
`decorators/base.py`, with their wire values. -/
inductive TraceloopSpanKindValues where
  | workflow
  | task
  | agent
  | tool
deriving DecidableEq

/-- The `.value` of the external span-kind enum member. -/
def TraceloopSpanKindValues.value : TraceloopSpanKindValues → String
  | TraceloopSpanKindValues.workflow => "workflow"
  | TraceloopSpanKindValues.task => "task"
  | TraceloopSpanKindValues.agent => "agent"
  | TraceloopSpanKindValues.tool => "tool"

/-- Kinds of error `json.dumps` can raise: `TypeError` (unserializable
object), `ValueError` (for example a circular reference), or some other
exception class. Only the first is caught by the decorator library. -/
inductive SerErr where
  | typeError (msg : String)
  | valueError (msg : String)
  | otherError (msg : String)
deriving DecidableEq

/-- An error escaping a decorated call: either the wrapped callable's own
exception or an uncaught serialization exception. -/
inductive WrapErr (ε : Type) where
  | fnErr (e : ε)
  | serErr (e : SerErr)

/-- A span attribute value (string or integer). -/
inductive AttrVal where
  | str (s : String)
  | int (n : Int)
deriving DecidableEq

/-- One observable interaction of the decorator wrapper with the external
tracing API, ambient context or telemetry sink, in the order performed. -/
inductive TraceEvent where
  | setWorkflowName (n : String)
  | startSpan (name : String)
  | attachContext
  | setEntityPath (p : String)
  | setAttr (key : String) (value : AttrVal)
  | logException (e : SerErr)
  | endSpan
  | detachContext
deriving DecidableEq

/-- Embeds `_is_json_size_valid(json_str)`: true exactly when the string
length is strictly below 1,000,000. -/
def _is_json_size_valid (json_str : String) : Bool :=
  json_str.length < 1000000

/-- Python's `str.lower()` on the environment value, character by character
(ASCII case folding, which covers the case-insensitive `"true"` comparison
the decorator performs). -/
def pyLower (s : String) : String :=
  String.mk (s.data.map Char.toLower)

/-- Embeds `_should_send_prompts()`. `envTraceContent` is the value of the
`TRACELOOP_TRACE_CONTENT` environment variable (`none` when unset) and
`overrideEnable` the truthiness of the ambient
`override_enable_content_tracing` context value. Python's
`os.getenv(...) or "true"` replaces both `None` and the empty string by
`"true"` before lowercasing. -/
def _should_send_prompts (envTraceContent : Option String) (overrideEnable : Bool) : Bool :=
  ((pyLower (match envTraceContent with
     | none => "true"
     | some v => if v == "" then "true" else v)) == "true")
  || overrideEnable

/-- One `try: if _should_send_prompts(): ... except TypeError: log` block of
the wrappers: when enabled, a successful serialization is attached under
`key` only if `_is_json_size_valid` holds; a `TypeError` is logged to the
telemetry sink and suppressed; any other serialization error propagates
(returned as the second component). -/
def serializeAttrStep (send : Bool) (key : String) (ser : Except SerErr String) :
    List TraceEvent × Option SerErr :=
  if send then
    match ser with
    | Except.ok s =>
      (if _is_json_size_valid s then [TraceEvent.setAttr key (AttrVal.str s)] else [], none)
    | Except.error (SerErr.typeError m) => ([TraceEvent.logException (SerErr.typeError m)], none)
    | Except.error e => ([], some e)
  else ([], none)

/-- Embeds the `wrap` closure produced by `entity_method(name, version,
tlp_span_kind)` applied to `fn`, called on `args`.

External collaborators are parameters: `ready` is
`TracerWrapper.verify_initialized()`; `chainedPath` is
`get_chained_entity_path`; `serializeInput` is
`json.dumps(..., cls=JSONEncoder)` on the packed arguments; `serializeOutput`
is `json.dumps(res, cls=JSONEncoder)`; `isGenerator` tells whether the result
is a synchronous generator object (in which case the span stays open and is
ended later by `_handle_generator`); `fn` is the wrapped callable, which may
raise. The result is the value returned to (or the error propagated to) the
caller, together with the interactions performed up to that point. -/
def entity_method_wrap {α β ε : Type} (ready : Bool) (name : Option String)
    (fnName : String) (version : Option Int) (tlpSpanKind : TraceloopSpanKindValues)
    (envTraceContent : Option String) (overrideEnable : Bool)
    (chainedPath : String → String)
    (serializeInput : α → Except SerErr String)
    (serializeOutput : β → Except SerErr String)
    (isGenerator : β → Bool)
    (fn : α → Except ε β) (args : α) :
    Except (WrapErr ε) β × List TraceEvent :=
  if ready = false then
    (match fn args with
     | Except.ok r => (Except.ok r, [])
     | Except.error e => (Except.error (WrapErr.fnErr e), []))
  else
    let entityName := match name with
      | some n => if n == "" then fnName else n
      | none => fnName
    let wfEvents :=
      if tlpSpanKind = TraceloopSpanKindValues.workflow
          ∨ tlpSpanKind = TraceloopSpanKindValues.agent then
        [TraceEvent.setWorkflowName entityName]
      else []
    let spanName := entityName ++ "." ++ tlpSpanKind.value
    let pathEvents :=
      if tlpSpanKind = TraceloopSpanKindValues.task
          ∨ tlpSpanKind = TraceloopSpanKindValues.tool then
        [TraceEvent.setEntityPath (chainedPath entityName)]
      else []
    let versionEvents := match version with
      | some v => if v = 0 then [] else [TraceEvent.setAttr TRACELOOP_ENTITY_VERSION (AttrVal.int v)]
      | none => []
    let baseEvents :=
      wfEvents ++ [TraceEvent.startSpan spanName, TraceEvent.attachContext] ++ pathEvents
        ++ [TraceEvent.setAttr TRACELOOP_SPAN_KIND (AttrVal.str tlpSpanKind.value),
            TraceEvent.setAttr TRACELOOP_ENTITY_NAME (AttrVal.str entityName)]
        ++ versionEvents
    let inputStep := serializeAttrStep (_should_send_prompts envTraceContent overrideEnable)
      TRACELOOP_ENTITY_INPUT (serializeInput args)
    match inputStep.2 with
    | some e => (Except.error (WrapErr.serErr e), baseEvents ++ inputStep.1)
    | none =>
      match fn args with
      | Except.error e => (Except.error (WrapErr.fnErr e), baseEvents ++ inputStep.1)
      | Except.ok res =>
        if isGenerator res then
          (Except.ok res, baseEvents ++ inputStep.1)
        else
          let outputStep := serializeAttrStep (_should_send_prompts envTraceContent overrideEnable)
            TRACELOOP_ENTITY_OUTPUT (serializeOutput res)
          match outputStep.2 with
          | some e => (Except.error (WrapErr.serErr e), baseEvents ++ inputStep.1 ++ outputStep.1)
          | none =>
            (Except.ok res,
             baseEvents ++ inputStep.1 ++ outputStep.1
               ++ [TraceEvent.endSpan, TraceEvent.detachContext])

/-- Embeds the asynchronous `wrap` closure produced by `aentity_method`: the
not-ready bypass directly awaits `fn`; otherwise the structure matches the
synchronous path, except that both serializations use the plain
`json.dumps` (no custom encoder — reflected by whichever serializers the
caller supplies) and the generator test is `isinstance(res,
AsyncGeneratorType)` before awaiting. -/
def aentity_method_wrap {α β ε : Type} (ready : Bool) (name : Option String)
    (fnName : String) (version : Option Int) (tlpSpanKind : TraceloopSpanKindValues)
    (envTraceContent : Option String) (overrideEnable : Bool)
    (chainedPath : String → String)
    (serializeInput : α → Except SerErr String)
    (serializeOutput : β → Except SerErr String)
    (isGenerator : β → Bool)
    (fn : α → Except ε β) (args : α) :
    Except (WrapErr ε) β × List TraceEvent :=
  if ready = false then
    (match fn args with
     | Except.ok r => (Except.ok r, [])
     | Except.error e => (Except.error (WrapErr.fnErr e), []))
  else
    let entityName := match name with
      | some n => if n == "" then fnName else n
      | none => fnName
    let wfEvents :=
      if tlpSpanKind = TraceloopSpanKindValues.workflow
          ∨ tlpSpanKind = TraceloopSpanKindValues.agent then
        [TraceEvent.setWorkflowName entityName]
      else []
    let spanName := entityName ++ "." ++ tlpSpanKind.value
    let pathEvents :=
      if tlpSpanKind = TraceloopSpanKindValues.task
          ∨ tlpSpanKind = TraceloopSpanKindValues.tool then
        [TraceEvent.setEntityPath (chainedPath entityName)]
      else []
    let versionEvents := match version with
      | some v => if v = 0 then [] else [TraceEvent.setAttr TRACELOOP_ENTITY_VERSION (AttrVal.int v)]
      | none => []
    let baseEvents :=
      wfEvents ++ [TraceEvent.startSpan spanName, TraceEvent.attachContext] ++ pathEvents
        ++ [TraceEvent.setAttr TRACELOOP_SPAN_KIND (AttrVal.str tlpSpanKind.value),
            TraceEvent.setAttr TRACELOOP_ENTITY_NAME (AttrVal.str entityName)]
        ++ versionEvents
    let inputStep := serializeAttrStep (_should_send_prompts envTraceContent overrideEnable)
      TRACELOOP_ENTITY_INPUT (serializeInput args)
    match inputStep.2 with
    | some e => (Except.error (WrapErr.serErr e), baseEvents ++ inputStep.1)
    | none =>
      match fn args with
      | Except.error e => (Except.error (WrapErr.fnErr e), baseEvents ++ inputStep.1)
      | Except.ok res =>
        if isGenerator res then
          (Except.ok res, baseEvents ++ inputStep.1)
        else
          let outputStep := serializeAttrStep (_should_send_prompts envTraceContent overrideEnable)
            TRACELOOP_ENTITY_OUTPUT (serializeOutput res)
          match outputStep.2 with
          | some e => (Except.error (WrapErr.serErr e), baseEvents ++ inputStep.1 ++ outputStep.1)
          | none =>
            (Except.ok res,
             baseEvents ++ inputStep.1 ++ outputStep.1
               ++ [TraceEvent.endSpan, TraceEvent.detachContext])

/-- Embeds the `Instruments(Enum)` of `traceloop/sdk/instruments.py`, member
for member in declaration order. -/
inductive Instruments where
  | ALEPHALPHA
  | ANTHROPIC
  | BEDROCK
  | CHROMA
  | COHERE
  | GOOGLE_GENERATIVEAI
  | GROQ
  | HAYSTACK
  | LANCEDB
  | LANGCHAIN
  | LLAMA_INDEX
  | MARQO
  | MILVUS
  | MISTRAL
  | OLLAMA
  | OPENAI
  | PINECONE
  | PYMYSQL
  | QDRANT
  | REDIS
  | REPLICATE
  | REQUESTS
  | SAGEMAKER
  | TOGETHER
  | TRANSFORMERS
  | URLLIB3
  | VERTEXAI
  | WATSONX
  | WEAVIATE
deriving DecidableEq, Fintype

/-- The string `.value` of each `Instruments` member, exactly as in the
source. -/
def Instruments.value : Instruments → String
  | Instruments.ALEPHALPHA => "alephalpha"
  | Instruments.ANTHROPIC => "anthropic"
  | Instruments.BEDROCK => "bedrock"
  | Instruments.CHROMA => "chroma"
  | Instruments.COHERE => "cohere"
  | Instruments.GOOGLE_GENERATIVEAI => "google_generativeai"
  | Instruments.GROQ => "groq"
  | Instruments.HAYSTACK => "haystack"
  | Instruments.LANCEDB => "lancedb"
  | Instruments.LANGCHAIN => "langchain"
  | Instruments.LLAMA_INDEX => "llama_index"
  | Instruments.MARQO => "marqo"
  | Instruments.MILVUS => "milvus"
  | Instruments.MISTRAL => "mistral"
  | Instruments.OLLAMA => "ollama"
  | Instruments.OPENAI => "openai"
  | Instruments.PINECONE => "pinecone"
  | Instruments.PYMYSQL => "pymysql"
  | Instruments.QDRANT => "qdrant"
  | Instruments.REDIS => "redis"
  | Instruments.REPLICATE => "replicate"
  | Instruments.REQUESTS => "requests"
  | Instruments.SAGEMAKER => "sagemaker"
  | Instruments.TOGETHER => "together"
  | Instruments.TRANSFORMERS => "transformers"
  | Instruments.URLLIB3 => "urllib3"
  | Instruments.VERTEXAI => "vertexai"
  | Instruments.WATSONX => "watsonx"
  | Instruments.WEAVIATE => "weaviate"

/-- The members of the enumeration in declaration order (Python enum
iteration order). -/
def Instruments.members : List Instruments :=
  [Instruments.ALEPHALPHA, Instruments.ANTHROPIC, Instruments.BEDROCK,
   Instruments.CHROMA, Instruments.COHERE, Instruments.GOOGLE_GENERATIVEAI,
   Instruments.GROQ, Instruments.HAYSTACK, Instruments.LANCEDB,
   Instruments.LANGCHAIN, Instruments.LLAMA_INDEX, Instruments.MARQO,
   Instruments.MILVUS, Instruments.MISTRAL, Instruments.OLLAMA,
   Instruments.OPENAI, Instruments.PINECONE, Instruments.PYMYSQL,
   Instruments.QDRANT, Instruments.REDIS, Instruments.REPLICATE,
   Instruments.REQUESTS, Instruments.SAGEMAKER, Instruments.TOGETHER,
   Instruments.TRANSFORMERS, Instruments.URLLIB3, Instruments.VERTEXAI,
   Instruments.WATSONX, Instruments.WEAVIATE]

/-- A Python runtime value as needed to describe
`Config.upload_base64_image`: either an actual string instance or a class
object such as the builtin `str` type. -/
inductive PyVal where
  | str (s : String)
  | typeObj (typeName : String)
deriving DecidableEq

/-- True exactly on actual string instances. -/
def PyVal.isStr : PyVal → Bool
  | PyVal.str _ => true
  | _ => false

/-- Embeds the `Config` class of
`opentelemetry/instrumentation/openai/shared/config.py` with its class-level
defaults. The default `upload_base64_image` is the source's
`lambda trace_id, span_id, base64_image_url: str`, whose body is the builtin
class `str` itself (a type object), not a string instance. -/
structure Config where
  enrich_token_usage : Bool := false
  enrich_assistant : Bool := false
  exception_logger : Option (PyVal → PyVal) := none
  get_common_metrics_attributes : Unit → List (String × PyVal) := fun _ => []
  upload_base64_image : String → String → String → PyVal :=
    fun trace_id span_id base64_image_url => PyVal.typeObj "str"
  event_logger : Option PyVal := none
  service_name : String := ""

/-- The freshly loaded `Config` with every field at its declared default. -/
def defaultConfig : Config := {}

/-- C1: the claim says that for a response in which
`amazon-bedrock-guardrailAction` is entirely absent (and neither the
`results` clause nor the `stopReason` clause fires),
`is_guardrail_activated` returns false. The code instead returns true on
such a response, because `response.get('amazon-bedrock-guardrailAction')`
yields `None` and `None != "NONE"` is `True`; evaluating at the failing
input, a response whose only field is a `stopReason` of `"end_turn"`,
exhibits this. -/
theorem c1_absent_guardrail_action_activates :
    is_guardrail_activated (JVal.obj [("stopReason", JVal.str "end_turn")])
      = Except.ok true := rfl

/-- C2 counterexample: the Instrumented-Vendor Registry enumeration does not
have 30 members. -/
theorem c2_registry_not_thirty : Fintype.card Instruments ≠ 30 := by decide

/-- C2 (amended): the registry enumeration has exactly 29 members; the member
list is complete and duplicate-free, and its values are exactly the 29
literal identifiers of the spec's section 6 list, each occurring exactly
once. -/
theorem c2_registry_members :
    Fintype.card Instruments = 29 ∧
    Instruments.members.length = 29 ∧
    Instruments.members.Nodup ∧
    (∀ i : Instruments, i ∈ Instruments.members) ∧
    Instruments.members.map Instruments.value =
      ["alephalpha", "anthropic", "bedrock", "chroma", "cohere",
       "google_generativeai", "groq", "haystack", "lancedb", "langchain",
       "llama_index", "marqo", "milvus", "mistral", "ollama", "openai",
       "pinecone", "pymysql", "qdrant", "redis", "replicate", "requests",
       "sagemaker", "together", "transformers", "urllib3", "vertexai",
       "watsonx", "weaviate"] ∧
    (Instruments.members.map Instruments.value).Nodup := by
  refine ⟨by decide, by decide, by decide, ?_, by decide, by decide⟩
  intro i
  cases i <;> decide

/-- C10: the claim says the default `upload_base64_image` returns a string
value, as its `Callable[[str, str, str], str]` annotation declares. The
default lambda's body is the bare name `str`, so the call returns the
builtin `str` class object itself, which is not a string instance: the code
contradicts its own declared contract. -/
theorem c10_upload_base64_image_default :
    defaultConfig.upload_base64_image "trace1" "span1" "data:image/png;base64,AAAA"
        = PyVal.typeObj "str" ∧
    PyVal.isStr
      (defaultConfig.upload_base64_image "trace1" "span1" "data:image/png;base64,AAAA")
        = false :=
  ⟨rfl, rfl⟩

/-- C4 counterexample: the claim says that with the environment variable set
to the empty string and no truthy ambient override, content capture is
disabled. The code replaces a falsy environment value (which includes the
empty string, through Python's `or`) by `"true"`, so content tracing is
enabled. -/
theorem c4_empty_env_enables :
    _should_send_prompts (some "") false = true := by decide

/-- C4 (amended): content tracing is enabled exactly when the
`TRACELOOP_TRACE_CONTENT` environment variable is unset, set to the empty
string, or set to a value equal case-insensitively to `"true"`, or the
ambient `override_enable_content_tracing` value is truthy. -/
theorem c4_should_send_prompts_iff (env : Option String) (ov : Bool) :
    _should_send_prompts env ov = true ↔
      (env = none ∨ env = some "" ∨ (∃ v, env = some v ∧ pyLower v = "true")
        ∨ ov = true) := by
  have htrue : (pyLower "true" == "true") = true := by decide
  cases env with
  | none => simp [_should_send_prompts, htrue]
  | some v =>
    by_cases hv : v = ""
    · subst hv
      simp [_should_send_prompts, htrue]
    · have hb : (v == "") = false := by simpa using hv
      simp only [_should_send_prompts, hb, Bool.false_eq_true, if_false,
        Bool.or_eq_true, beq_iff_eq, Option.some.injEq]
      constructor
      · rintro (h | h)
        · exact Or.inr (Or.inr (Or.inl ⟨v, rfl, h⟩))
        · exact Or.inr (Or.inr (Or.inr h))
      · rintro (h | h | ⟨w, hw, hlow⟩ | h)
        · exact absurd h (by simp)
        · exact absurd h (by simp [hv])
        · cases hw; exact Or.inl hlow
        · exact Or.inr h

/-- C5: when the tracer-wrapper reports tracing not initialized, both the
synchronous and the asynchronous decorated call return exactly the wrapped
callable's result (or propagate exactly its error) and perform no span
creation, no attribute write, and no ambient-context interaction at all. -/
theorem c5_bypass_when_not_ready {α β ε : Type} (name : Option String)
    (fnName : String) (version : Option Int) (kind : TraceloopSpanKindValues)
    (env : Option String) (ov : Bool) (cp : String → String)
    (si : α → Except SerErr String) (so : β → Except SerErr String)
    (ig : β → Bool) (fn : α → Except ε β) (args : α) :
    entity_method_wrap false name fnName version kind env ov cp si so ig fn args
        = (Except.mapError WrapErr.fnErr (fn args), []) ∧
    aentity_method_wrap false name fnName version kind env ov cp si so ig fn args
        = (Except.mapError WrapErr.fnErr (fn args), []) := by
  cases h : fn args <;>
    simp [entity_method_wrap, aentity_method_wrap, Except.mapError, h]

/-- C3 counterexample: the claim says any error raised while JSON-serializing
the input or output is caught inside the wrapper and never propagates. A
serialization failure of kind `ValueError` (for example the circular-reference
error `json.dumps` raises) is not caught by the wrapper's
`except TypeError` clause: at this concrete call it escapes to the caller
instead of the wrapped callable's value being returned, and nothing is
reported to the telemetry sink. -/
theorem c3_value_error_propagates :
    (entity_method_wrap true (some "e") "f" none TraceloopSpanKindValues.task
        none false (fun n => n)
        (fun _ : Unit => Except.error (SerErr.valueError "Circular reference detected"))
        (fun _ : Nat => Except.ok "0")
        (fun _ => false)
        (fun _ => (Except.ok 0 : Except Unit Nat)) ()).1
      = Except.error (WrapErr.serErr (SerErr.valueError "Circular reference detected")) := by
  rfl

/-- C3 (amended): a serialization failure of kind `TypeError` (the kind the
serializer raises on a non-serializable value) is caught inside both
wrappers, reported to the exception-telemetry sink, and suppressed: the span
attribute is omitted, the wrapped callable's invocation proceeds and its
value is returned; serialization errors of other kinds are not caught. The
event lists below contain the two sink reports and no input or output
attribute write. -/
theorem c3_type_error_suppressed (mi mo : String) (r : Nat) :
    entity_method_wrap true (some "e") "f" none TraceloopSpanKindValues.task
        none false (fun n => n)
        (fun _ : Unit => Except.error (SerErr.typeError mi))
        (fun _ : Nat => Except.error (SerErr.typeError mo))
        (fun _ => false)
        (fun _ => (Except.ok r : Except Unit Nat)) ()
      = (Except.ok r,
         [TraceEvent.startSpan "e.task", TraceEvent.attachContext,
          TraceEvent.setEntityPath "e",
          TraceEvent.setAttr TRACELOOP_SPAN_KIND (AttrVal.str "task"),
          TraceEvent.setAttr TRACELOOP_ENTITY_NAME (AttrVal.str "e"),
          TraceEvent.logException (SerErr.typeError mi),
          TraceEvent.logException (SerErr.typeError mo),
          TraceEvent.endSpan, TraceEvent.detachContext]) ∧
    aentity_method_wrap true (some "e") "f" none TraceloopSpanKindValues.task
        none false (fun n => n)
        (fun _ : Unit => Except.error (SerErr.typeError mi))
        (fun _ : Nat => Except.error (SerErr.typeError mo))
        (fun _ => false)
        (fun _ => (Except.ok r : Except Unit Nat)) ()
      = (Except.ok r,
         [TraceEvent.startSpan "e.task", TraceEvent.attachContext,
          TraceEvent.setEntityPath "e",
          TraceEvent.setAttr TRACELOOP_SPAN_KIND (AttrVal.str "task"),
          TraceEvent.setAttr TRACELOOP_ENTITY_NAME (AttrVal.str "e"),
          TraceEvent.logException (SerErr.typeError mi),
          TraceEvent.logException (SerErr.typeError mo),
          TraceEvent.endSpan, TraceEvent.detachContext]) := by
  constructor <;> rfl

/-- Helper for the size-guard claim: with tracing ready, content tracing
enabled by default, and both serializations succeeding, the wrapper's result
and full event list, with the input and output attribute writes guarded by
the 1,000,000-character bound. -/
theorem entity_method_wrap_sized (si so : String) :
    entity_method_wrap true (some "e") "f" none TraceloopSpanKindValues.task
        none false (fun n => n)
        (fun _ : Unit => Except.ok si)
        (fun _ : Nat => Except.ok so)
        (fun _ => false)
        (fun _ => (Except.ok 7 : Except Unit Nat)) ()
      = (Except.ok 7,
         [TraceEvent.startSpan "e.task", TraceEvent.attachContext,
          TraceEvent.setEntityPath "e",
          TraceEvent.setAttr TRACELOOP_SPAN_KIND (AttrVal.str "task"),
          TraceEvent.setAttr TRACELOOP_ENTITY_NAME (AttrVal.str "e")]
         ++ (if si.length < 1000000
             then [TraceEvent.setAttr TRACELOOP_ENTITY_INPUT (AttrVal.str si)] else [])
         ++ (if so.length < 1000000
             then [TraceEvent.setAttr TRACELOOP_ENTITY_OUTPUT (AttrVal.str so)] else [])
         ++ [TraceEvent.endSpan, TraceEvent.detachContext]) := by
  have hsend : _should_send_prompts none false = true := by decide
  by_cases hsi : si.length < 1000000 <;> by_cases hso : so.length < 1000000 <;>
    simp [entity_method_wrap, serializeAttrStep, _is_json_size_valid, hsend,
      hsi, hso, TraceloopSpanKindValues.value]

/-- C7: with content tracing enabled, a serialized input or output JSON
string is attached as the corresponding span attribute exactly when its
length is strictly below 1,000,000 characters; when attached it is attached
verbatim (no other value is ever written under the input or output
attribute key, so no truncation occurs), and in both cases the call
completes normally with the wrapped callable's value. -/
theorem c7_size_guard (si so : String) :
    ((entity_method_wrap true (some "e") "f" none TraceloopSpanKindValues.task
        none false (fun n => n)
        (fun _ : Unit => Except.ok si)
        (fun _ : Nat => Except.ok so)
        (fun _ => false)
        (fun _ => (Except.ok 7 : Except Unit Nat)) ()).1 = Except.ok 7) ∧
    (TraceEvent.setAttr TRACELOOP_ENTITY_INPUT (AttrVal.str si) ∈
        (entity_method_wrap true (some "e") "f" none TraceloopSpanKindValues.task
          none false (fun n => n)
          (fun _ : Unit => Except.ok si)
          (fun _ : Nat => Except.ok so)
          (fun _ => false)
          (fun _ => (Except.ok 7 : Except Unit Nat)) ()).2
      ↔ si.length < 1000000) ∧
    (TraceEvent.setAttr TRACELOOP_ENTITY_OUTPUT (AttrVal.str so) ∈
        (entity_method_wrap true (some "e") "f" none TraceloopSpanKindValues.task
          none false (fun n => n)
          (fun _ : Unit => Except.ok si)
          (fun _ : Nat => Except.ok so)
          (fun _ => false)
          (fun _ => (Except.ok 7 : Except Unit Nat)) ()).2
      ↔ so.length < 1000000) ∧
    (∀ v, TraceEvent.setAttr TRACELOOP_ENTITY_INPUT v ∈
        (entity_method_wrap true (some "e") "f" none TraceloopSpanKindValues.task
          none false (fun n => n)
          (fun _ : Unit => Except.ok si)
          (fun _ : Nat => Except.ok so)
          (fun _ => false)
          (fun _ => (Except.ok 7 : Except Unit Nat)) ()).2
      → v = AttrVal.str si) ∧
    (∀ v, TraceEvent.setAttr TRACELOOP_ENTITY_OUTPUT v ∈
        (entity_method_wrap true (some "e") "f" none TraceloopSpanKindValues.task
          none false (fun n => n)
          (fun _ : Unit => Except.ok si)
          (fun _ : Nat => Except.ok so)
          (fun _ => false)
          (fun _ => (Except.ok 7 : Except Unit Nat)) ()).2
      → v = AttrVal.str so) := by
  rw [entity_method_wrap_sized si so]
  have hio : TRACELOOP_ENTITY_INPUT ≠ TRACELOOP_ENTITY_OUTPUT := by decide
  have hsk : TRACELOOP_ENTITY_INPUT ≠ TRACELOOP_SPAN_KIND := by decide
  have hen : TRACELOOP_ENTITY_INPUT ≠ TRACELOOP_ENTITY_NAME := by decide
  have hok : TRACELOOP_ENTITY_OUTPUT ≠ TRACELOOP_SPAN_KIND := by decide
  have hon : TRACELOOP_ENTITY_OUTPUT ≠ TRACELOOP_ENTITY_NAME := by decide
  by_cases hsi : si.length < 1000000 <;> by_cases hso : so.length < 1000000 <;>
    simp_all [hio.symm, hsk, hen, hok, hon, hio]

/-- Witness for the size-guard claim: at a concrete two-character input
serialization, the input attribute is attached. -/
theorem c7_size_guard_witness :
    TraceEvent.setAttr TRACELOOP_ENTITY_INPUT (AttrVal.str "ab") ∈
      (entity_method_wrap true (some "e") "f" none TraceloopSpanKindValues.task
        none false (fun n => n)
        (fun _ : Unit => Except.ok "ab")
        (fun _ : Nat => Except.ok "cd")
        (fun _ => false)
        (fun _ => (Except.ok 7 : Except Unit Nat)) ()).2 :=
  ((c7_size_guard "ab" "cd").2.1).mpr (by decide)

/-- Helper: scanning a results list whose entries are all mappings returns
true as soon as some entry's `completionReason` equals
`"CONTENT_FILTERED"`. -/
theorem scanResults_ok_true (msgs : List JVal)
    (hobj : ∀ x ∈ msgs, ∃ fs, x = JVal.obj fs)
    (m : JVal) (hm : m ∈ msgs)
    (hcf : jget m "completionReason" = some (JVal.str "CONTENT_FILTERED")) :
    scanResults msgs = Except.ok true := by
  induction msgs with
  | nil => cases hm
  | cons x rest ih =>
    obtain ⟨fs, hx⟩ := hobj x (List.mem_cons_self x rest)
    subst hx
    rcases List.mem_cons.mp hm with hmx | hmrest
    · subst hmx
      simp [scanResults, hcf]
    · cases hcr : jget (JVal.obj fs) "completionReason" with
      | none =>
        simp only [scanResults, hcr]
        exact ih (fun y hy => hobj y (List.mem_cons_of_mem _ hy)) hmrest
      | some v =>
        cases v with
        | str s =>
          by_cases hs : s = "CONTENT_FILTERED"
          · subst hs; simp [scanResults, hcr]
          · have hsb : (s == "CONTENT_FILTERED") = false := by simpa using hs
            simp only [scanResults, hcr, hsb, Bool.false_eq_true, if_false]
            exact ih (fun y hy => hobj y (List.mem_cons_of_mem _ hy)) hmrest
        | num n =>
          simp only [scanResults, hcr]
          exact ih (fun y hy => hobj y (List.mem_cons_of_mem _ hy)) hmrest
        | obj fs2 =>
          simp only [scanResults, hcr]
          exact ih (fun y hy => hobj y (List.mem_cons_of_mem _ hy)) hmrest
        | arr xs =>
          simp only [scanResults, hcr]
          exact ih (fun y hy => hobj y (List.mem_cons_of_mem _ hy)) hmrest

/-- C6: activation detection. A response whose well-formed `results` list
holds an entry with `completionReason` equal to `"CONTENT_FILTERED"`
activates; a response whose `results` clause completes without raising and
whose `stopReason` equals `"guardrail_intervened"` activates; a response
whose `results` clause completes without raising and whose
`amazon-bedrock-guardrailAction` is present with any value other than the
string `"NONE"` activates; and the response consisting solely of
`amazon-bedrock-guardrailAction` set to `"NONE"` does not activate. -/
theorem c6_activation_cases :
    (∀ (response : JVal) (msgs : List JVal) (m : JVal),
      jget response "results" = some (JVal.arr msgs) →
      (∀ x ∈ msgs, ∃ fs, x = JVal.obj fs) →
      m ∈ msgs →
      jget m "completionReason" = some (JVal.str "CONTENT_FILTERED") →
      is_guardrail_activated response = Except.ok true) ∧
    (∀ (response : JVal) (b : Bool),
      checkResults response = Except.ok b →
      jget response "stopReason" = some (JVal.str "guardrail_intervened") →
      is_guardrail_activated response = Except.ok true) ∧
    (∀ (response : JVal) (b : Bool) (v : JVal),
      checkResults response = Except.ok b →
      jget response "amazon-bedrock-guardrailAction" = some v →
      v ≠ JVal.str "NONE" →
      is_guardrail_activated response = Except.ok true) ∧
    is_guardrail_activated (JVal.obj [("amazon-bedrock-guardrailAction", JVal.str "NONE")])
      = Except.ok false := by
  refine ⟨?_, ?_, ?_, rfl⟩
  · intro response msgs m hres hobj hm hcf
    have hscan := scanResults_ok_true msgs hobj m hm hcf
    have hcheck : checkResults response = Except.ok true := by
      simp [checkResults, hres, pyIter, hscan]
    simp [is_guardrail_activated, hcheck]
  · intro response b hcheck hstop
    cases b with
    | true => simp [is_guardrail_activated, hcheck]
    | false => simp [is_guardrail_activated, hcheck, hstop]
  · intro response b v hcheck hact hv
    cases b with
    | true => simp [is_guardrail_activated, hcheck]
    | false =>
      by_cases hstop : (match jget response "stopReason" with
        | some (JVal.str s) => s == "guardrail_intervened"
        | _ => false) = true
      · simp [is_guardrail_activated, hcheck, hstop]
      · cases v with
        | str s =>
          have hs : s ≠ "NONE" := fun h => hv (by rw [h])
          have hsb : (s == "NONE") = false := by simpa using hs
          simp [is_guardrail_activated, hcheck, hstop, hact, hsb]
        | num n => simp [is_guardrail_activated, hcheck, hstop, hact]
        | obj fs => simp [is_guardrail_activated, hcheck, hstop, hact]
        | arr xs => simp [is_guardrail_activated, hcheck, hstop, hact]

/-- Witness for the activation claim: each clause at a concrete response. -/
theorem c6_activation_cases_witness :
    is_guardrail_activated
        (JVal.obj [("results",
          JVal.arr [JVal.obj [("completionReason", JVal.str "CONTENT_FILTERED")]])])
      = Except.ok true ∧
    is_guardrail_activated (JVal.obj [("stopReason", JVal.str "guardrail_intervened")])
      = Except.ok true ∧
    is_guardrail_activated
        (JVal.obj [("amazon-bedrock-guardrailAction", JVal.str "INTERVENED")])
      = Except.ok true ∧
    is_guardrail_activated (JVal.obj [("amazon-bedrock-guardrailAction", JVal.str "NONE")])
      = Except.ok false := by
  refine ⟨?_, ?_, ?_, c6_activation_cases.2.2.2⟩
  · exact c6_activation_cases.1 _
      [JVal.obj [("completionReason", JVal.str "CONTENT_FILTERED")]]
      (JVal.obj [("completionReason", JVal.str "CONTENT_FILTERED")])
      rfl (by intro x hx; simp at hx; exact ⟨_, hx⟩) (by simp) rfl
  · exact c6_activation_cases.2.1 _ false rfl rfl
  · exact c6_activation_cases.2.2.1 _ false (JVal.str "INTERVENED") rfl rfl (by simp)

/-- A converse-shaped response whose `trace.guardrail.inputAssessment` maps
the single guardrail id `g1` to an assessment with one `EMAIL` PII entity. -/
def converseEmailResponse : JVal :=
  JVal.obj [("trace", JVal.obj [("guardrail", JVal.obj [("inputAssessment",
    JVal.obj [("g1", JVal.obj [("sensitiveInformationPolicy",
      JVal.obj [("piiEntities",
        JVal.arr [JVal.obj [("type", JVal.str "EMAIL")]])])])])])])]

/-- C9: for every converse-shaped response carrying an `inputAssessment`,
`guardrail_converse` takes the mapping's first key as the guardrail id, adds
it to the attributes as `gen_ai.guardrail`, and processes that single
assessment as direction `INPUT` (followed only by the activation counter);
at the concrete response whose input assessment for id `g1` holds
`piiEntities` equal to a single `EMAIL` entry, the sensitive-info counter is
incremented exactly once, with attributes carrying the guardrail id `g1`,
the direction value `input` and the PII type `EMAIL`. -/
theorem c9_converse_input :
    (∀ (response tr g ia info : JVal) (gId : String) (evs : List MetricEvent)
        (act : Bool) (vendor model : String),
      jget response "trace" = some tr →
      jget tr "guardrail" = some g →
      jget g "inputAssessment" = some ia →
      firstKey ia = some gId →
      jget ia gId = some info →
      jget g "outputAssessments" = none →
      ghandle Direction.INPUT info
          (dinsert (baseAttrs vendor model) "gen_ai.guardrail" (JVal.str gId))
        = (evs, none) →
      is_guardrail_activated response = Except.ok act →
      guardrail_converse response vendor model =
        (evs ++ (if act then
            [MetricEvent.counterAdd 1
              (dinsert (baseAttrs vendor model) "gen_ai.guardrail" (JVal.str gId))]
          else []), none)) ∧
    guardrail_converse converseEmailResponse "v" "m" =
      ([MetricEvent.sensitiveAdd 1
          [("gen_ai.vendor", JVal.str "v"), (LLM_RESPONSE_MODEL, JVal.str "m"),
           (LLM_SYSTEM, JVal.str "bedrock"), ("gen_ai.guardrail", JVal.str "g1"),
           ("gen_ai.guardrail.type", JVal.str "input"),
           ("gen_ai.guardrail.pii", JVal.str "EMAIL")],
        MetricEvent.counterAdd 1
          [("gen_ai.vendor", JVal.str "v"), (LLM_RESPONSE_MODEL, JVal.str "m"),
           (LLM_SYSTEM, JVal.str "bedrock"), ("gen_ai.guardrail", JVal.str "g1")]],
       none) := by
  constructor
  · intro response tr g ia info gId evs act vendor model htr hg hia hfk hinfo hoa hgh hact
    cases act <;>
      simp [guardrail_converse, convInput, convOutput, htr, hg, hia, hfk, hinfo,
        hoa, hgh, hact]
  · rfl

/-- Witness for the converse-input claim: the quantified clause applied at
the concrete `EMAIL` response, every hypothesis discharged by evaluation. -/
theorem c9_converse_input_witness :
    guardrail_converse converseEmailResponse "v" "m" =
      ([MetricEvent.sensitiveAdd 1
          [("gen_ai.vendor", JVal.str "v"), (LLM_RESPONSE_MODEL, JVal.str "m"),
           (LLM_SYSTEM, JVal.str "bedrock"), ("gen_ai.guardrail", JVal.str "g1"),
           ("gen_ai.guardrail.type", JVal.str "input"),
           ("gen_ai.guardrail.pii", JVal.str "EMAIL")]]
        ++ (if true then
            [MetricEvent.counterAdd 1
              (dinsert (baseAttrs "v" "m") "gen_ai.guardrail" (JVal.str "g1"))]
          else []), none) :=
  c9_converse_input.1 converseEmailResponse
    (JVal.obj [("guardrail", JVal.obj [("inputAssessment",
      JVal.obj [("g1", JVal.obj [("sensitiveInformationPolicy",
        JVal.obj [("piiEntities",
          JVal.arr [JVal.obj [("type", JVal.str "EMAIL")]])])])])])])
    (JVal.obj [("inputAssessment",
      JVal.obj [("g1", JVal.obj [("sensitiveInformationPolicy",
        JVal.obj [("piiEntities",
          JVal.arr [JVal.obj [("type", JVal.str "EMAIL")]])])])])])
    (JVal.obj [("g1", JVal.obj [("sensitiveInformationPolicy",
      JVal.obj [("piiEntities",
        JVal.arr [JVal.obj [("type", JVal.str "EMAIL")]])])])])
    (JVal.obj [("sensitiveInformationPolicy",
      JVal.obj [("piiEntities",
        JVal.arr [JVal.obj [("type", JVal.str "EMAIL")]])])])
    "g1"
    [MetricEvent.sensitiveAdd 1
      [("gen_ai.vendor", JVal.str "v"), (LLM_RESPONSE_MODEL, JVal.str "m"),
       (LLM_SYSTEM, JVal.str "bedrock"), ("gen_ai.guardrail", JVal.str "g1"),
       ("gen_ai.guardrail.type", JVal.str "input"),
       ("gen_ai.guardrail.pii", JVal.str "EMAIL")]]
    true "v" "m" rfl rfl rfl rfl rfl rfl rfl rfl

/-- First entry of the `outputs` list in the invoke-shaped example: it maps
guardrail id `g1` to a topic assessment and guardrail id `g2` to a `PHONE`
PII assessment. -/
def invokeOut0 : JVal :=
  JVal.obj [("g1", JVal.obj [("topicPolicy",
      JVal.obj [("topics", JVal.arr [JVal.obj [("name", JVal.str "T0")]])])]),
    ("g2", JVal.obj [("sensitiveInformationPolicy",
      JVal.obj [("piiEntities", JVal.arr [JVal.obj [("type", JVal.str "PHONE")]])])])]

/-- Second entry of the `outputs` list: it maps guardrail id `g2` to an
`SSN` PII assessment, different from the first entry's assessment for the
same id. -/
def invokeOut1 : JVal :=
  JVal.obj [("g2", JVal.obj [("sensitiveInformationPolicy",
    JVal.obj [("piiEntities", JVal.arr [JVal.obj [("type", JVal.str "SSN")]])])])]

/-- An invoke-shaped response with a two-entry `outputs` list whose entries
disagree about the assessment stored under guardrail id `g2`. -/
def invokeOutputsResponse : JVal :=
  JVal.obj [("amazon-bedrock-guardrailAction", JVal.str "INTERVENED"),
    ("amazon-bedrock-trace", JVal.obj [("guardrail",
      JVal.obj [("outputs", JVal.arr [invokeOut0, invokeOut1])])])]

/-- C8: in invoke-shaped guardrail processing, each iteration of the
`outputs` loop takes the guardrail id from the current entry's first key but
looks the processed `OUTPUT` assessment up under that id in the first list
entry: the loop step depends on the first entry's content, the current
entry matters only through its first key, and at the concrete two-entry
response the second iteration records the `PHONE` assessment stored in the
first entry under `g2`, not the `SSN` assessment the current entry holds. -/
theorem c8_outputs_indexed_by_first_entry :
    (∀ (first o : JVal) (rest : List JVal) (attrs : List (String × JVal))
        (k : String) (info : JVal),
      firstKey o = some k →
      jget first k = some info →
      processOutputsFrom first attrs (o :: rest) =
        (let attrs1 := dinsert attrs "gen_ai.guardrail" (JVal.str k)
         let r := ghandle Direction.OUTPUT info attrs1
         match r.2 with
         | some e => (attrs1, r.1, some e)
         | none =>
           let rr := processOutputsFrom first attrs1 rest
           (rr.1, r.1 ++ rr.2.1, rr.2.2))) ∧
    (∀ (first o oAlt : JVal) (rest : List JVal) (attrs : List (String × JVal))
        (k : String),
      firstKey o = some k →
      firstKey oAlt = some k →
      processOutputsFrom first attrs (o :: rest)
        = processOutputsFrom first attrs (oAlt :: rest)) ∧
    guardrail_handling invokeOutputsResponse "v" "m" =
      ([MetricEvent.topicAdd 1
          [("gen_ai.vendor", JVal.str "v"), (LLM_RESPONSE_MODEL, JVal.str "m"),
           (LLM_SYSTEM, JVal.str "bedrock"), ("gen_ai.guardrail", JVal.str "g1"),
           ("gen_ai.guardrail.type", JVal.str "output"),
           ("gen_ai.guardrail.topic", JVal.str "T0")],
        MetricEvent.sensitiveAdd 1
          [("gen_ai.vendor", JVal.str "v"), (LLM_RESPONSE_MODEL, JVal.str "m"),
           (LLM_SYSTEM, JVal.str "bedrock"), ("gen_ai.guardrail", JVal.str "g2"),
           ("gen_ai.guardrail.type", JVal.str "output"),
           ("gen_ai.guardrail.pii", JVal.str "PHONE")],
        MetricEvent.counterAdd 1
          [("gen_ai.vendor", JVal.str "v"), (LLM_RESPONSE_MODEL, JVal.str "m"),
           (LLM_SYSTEM, JVal.str "bedrock"), ("gen_ai.guardrail", JVal.str "g2")]],
       none) := by
  refine ⟨?_, ?_, rfl⟩
  · intro first o rest attrs k info h1 h2
    simp only [processOutputsFrom, h1, h2]
  · intro first o oAlt rest attrs k h1 h2
    simp only [processOutputsFrom, h1, h2]

/-- Witness for the outputs-indexing claim: replacing the second entry's
content (keeping its first key `g2`) does not change the loop's result,
because the processed assessment comes from the first entry. -/
theorem c8_outputs_indexed_by_first_entry_witness :
    processOutputsFrom invokeOut0 (baseAttrs "v" "m") [invokeOut1]
      = processOutputsFrom invokeOut0 (baseAttrs "v" "m")
          [JVal.obj [("g2", JVal.str "garbage")]] :=
  c8_outputs_indexed_by_first_entry.2.1 invokeOut0 invokeOut1
    (JVal.obj [("g2", JVal.str "garbage")]) [] (baseAttrs "v" "m") "g2" rfl rfl

/-- Witness for the content-tracing characterization: a set value equal
case-insensitively to the string true enables content capture. -/
theorem c4_should_send_prompts_iff_witness :
    _should_send_prompts (some "TRUE") false = true :=
  (c4_should_send_prompts_iff (some "TRUE") false).mpr
    (Or.inr (Or.inr (Or.inl ⟨"TRUE", rfl, by decide⟩)))
